import Mathlib

/-!
Verification development for the ZK Tactical Match core of the
Stellar-Game-Studio repository: the session ledger state machine, the
resolution engine (fixed 4x4 payoff table), and the asymmetric co-signing
protocol run by the frontend service
(zk-tactical-match-frontend/src/games/zk-tactical-match).

The Soroban contract body (start_game, submit_tactic, resolve_match,
get_game implementations in Rust) is not part of the frontend sources;
only its TypeScript bindings (bindings.ts: the Game record, the Error
enumeration, the method signatures) and the repository documentation
(the strategic score matrix) are. Definitions for the contract side are
therefore modelled from the specification, as marked in their doc
comments; frontend-side definitions are embedded from the TypeScript
source directly.
-/

namespace ZkTacticalMatch

/-- Contract error enumeration, from bindings.ts (Errors, codes 1..7). -/
inductive ContractError where
  | GameNotFound
  | NotPlayer
  | AlreadySubmitted
  | BothPlayersNotSubmitted
  | GameAlreadyEnded
  | InvalidTactic
  | InvalidProof
  deriving DecidableEq, Repr

/-- Numeric error codes, from bindings.ts (Errors object). -/
def ContractError.code : ContractError → Nat
  | .GameNotFound => 1
  | .NotPlayer => 2
  | .AlreadySubmitted => 3
  | .BothPlayersNotSubmitted => 4
  | .GameAlreadyEnded => 5
  | .InvalidTactic => 6
  | .InvalidProof => 7

/-- The Game record, from bindings.ts (interface Game). Buffers are
modelled as byte lists, i128 points as Int, u32 scores and tactics as
Nat, addresses as strings. -/
structure Game where
  player1 : String
  player1_points : Int
  player1_proof_hash : Option (List Nat)
  player1_score : Option Nat
  player1_tactic : Option Nat
  player2 : String
  player2_points : Int
  player2_proof_hash : Option (List Nat)
  player2_score : Option Nat
  player2_tactic : Option Nat
  winner : Option String
  deriving DecidableEq, Repr

/-- Session phases, from the specification data model (section 3). -/
inductive Phase where
  | Created
  | Active
  | AwaitingBoth
  | Resolved
  deriving DecidableEq, Repr

/-- Derived session phase: Resolved once a winner is stored, AwaitingBoth
once both commitment slots are filled, Active otherwise. The bindings
Game record carries no explicit phase field; the phase enumeration of the
specification is recovered from the winner and commitment slots. -/
def Game.phase (g : Game) : Phase :=
  if g.winner.isSome then Phase.Resolved
  else if g.player1_proof_hash.isSome && g.player2_proof_hash.isSome then Phase.AwaitingBoth
  else Phase.Active

/-- The session ledger: a map from session identifier to Game record,
modelled as an association list (specification section 9: an explicit
map abstraction with per-key mutation). -/
abbrev Ledger := List (Nat × Game)

/-- Lookup of a session by identifier. -/
def lookupGame : Ledger → Nat → Option Game
  | [], _ => none
  | (k, g) :: tl, id => if k == id then some g else lookupGame tl id

/-- Replacement of the record stored under an identifier. -/
def updateGame : Ledger → Nat → Game → Ledger
  | [], _, _ => []
  | (k, g) :: tl, id, g2 => if k == id then (id, g2) :: tl else (k, g) :: updateGame tl id g2

/-- A fresh session record: both player identities and stakes fixed,
all optional fields empty. -/
def newGame (p1 p2 : String) (pts1 pts2 : Int) : Game :=
  { player1 := p1, player1_points := pts1, player1_proof_hash := none,
    player1_score := none, player1_tactic := none,
    player2 := p2, player2_points := pts2, player2_proof_hash := none,
    player2_score := none, player2_tactic := none, winner := none }

/-- The fixed 4x4 strategic score matrix, row = player 1 tactic, column =
player 2 tactic, from the repository documentation (Strategic Matrix
table, identical in the project README and ZK_TACTICAL_MATCH_SUMMARY.md):
tactics are 0=Defensive, 1=Balanced, 2=Aggressive, 3=AllOut. Entries
outside the four-value domain are irrelevant (the verifier enforces the
domain) and default to (0, 0). -/
def scoreMatrix (a b : Nat) : Nat × Nat :=
  match a, b with
  | 0, 0 => (0, 0)
  | 0, 1 => (0, 1)
  | 0, 2 => (1, 1)
  | 0, 3 => (2, 2)
  | 1, 0 => (1, 0)
  | 1, 1 => (1, 1)
  | 1, 2 => (1, 2)
  | 1, 3 => (2, 3)
  | 2, 0 => (1, 1)
  | 2, 1 => (2, 1)
  | 2, 2 => (2, 2)
  | 2, 3 => (3, 3)
  | 3, 0 => (2, 2)
  | 3, 1 => (3, 2)
  | 3, 2 => (3, 3)
  | 3, 3 => (4, 4)
  | _, _ => (0, 0)

/-- Modelled from the spec: winner selection of the Resolution Engine
(the Soroban contract implementing resolve_match is not under the
frontend sources). The winner is the player with the strictly higher
score; ties go to player 1, per the repository documentation (Strategy:
Ties go to Player 1) and specification section 4.4. -/
def winnerOf (g : Game) (sa sb : Nat) : String :=
  if sb ≤ sa then g.player1 else g.player2

/-- Failure kinds of session creation, from specification section 4.2
(create fails if the id already denotes a live session, or if the two
players are equal); the bindings declare no numeric codes for these. -/
inductive CreateError where
  | DuplicateId
  | EqualPlayers
  deriving DecidableEq, Repr

/-- Modelled from the spec: the create operation of the Session Ledger
(section 4.2) with the argument names of the bindings.ts start_game
declaration. Fails on a duplicate identifier or equal players; on
success stores a fresh session. -/
def start_game (l : Ledger) (session_id : Nat) (player1 player2 : String)
    (player1_points player2_points : Int) : Except CreateError Ledger :=
  if (lookupGame l session_id).isSome then Except.error CreateError.DuplicateId
  else if player1 == player2 then Except.error CreateError.EqualPlayers
  else Except.ok ((session_id, newGame player1 player2 player1_points player2_points) :: l)

/-- Modelled from the spec: the submit operation of the Session Ledger
(section 4.2), with the Commitment Verifier (section 4.3) as an opaque
boolean-valued parameter over (session id, commitment, proof). Checks,
in order: session exists, caller is one of the two players, that
callers commitment slot is still empty, the session is not resolved,
the verifier accepts; on acceptance stores the commitment in that
players slot (the player proof-hash slot of the bindings Game record). -/
def submit_tactic (verify : Nat → List Nat → List Nat → Bool) (l : Ledger)
    (session_id : Nat) (player : String) (commitment proof : List Nat) :
    Except ContractError Ledger :=
  match lookupGame l session_id with
  | none => Except.error ContractError.GameNotFound
  | some g =>
    if player == g.player1 then
      if g.player1_proof_hash.isSome then Except.error ContractError.AlreadySubmitted
      else if g.winner.isSome then Except.error ContractError.GameAlreadyEnded
      else if verify session_id commitment proof then
        Except.ok (updateGame l session_id { g with player1_proof_hash := some commitment })
      else Except.error ContractError.InvalidProof
    else if player == g.player2 then
      if g.player2_proof_hash.isSome then Except.error ContractError.AlreadySubmitted
      else if g.winner.isSome then Except.error ContractError.GameAlreadyEnded
      else if verify session_id commitment proof then
        Except.ok (updateGame l session_id { g with player2_proof_hash := some commitment })
      else Except.error ContractError.InvalidProof
    else Except.error ContractError.NotPlayer

/-- Modelled from the spec: the resolve operation of the Session Ledger
(section 4.2). The mechanism by which the committed choice becomes
available to the Resolution Engine is left open by the specification
(section 9); it is modelled as an opaque reveal function from a stored
commitment to its bound choice. Fails GameNotFound on an unknown id,
BothPlayersNotSubmitted unless both commitment slots are filled,
GameAlreadyEnded once a winner is stored; otherwise stores tactics,
scores and winner atomically and returns the winner identity. -/
def resolve_match (reveal : List Nat → Nat) (l : Ledger) (session_id : Nat) :
    Except ContractError (String × Ledger) :=
  match lookupGame l session_id with
  | none => Except.error ContractError.GameNotFound
  | some g =>
    match g.player1_proof_hash, g.player2_proof_hash with
    | some c1, some c2 =>
      if g.winner.isSome then Except.error ContractError.GameAlreadyEnded
      else
        let t1 := reveal c1
        let t2 := reveal c2
        let s := scoreMatrix t1 t2
        let w := winnerOf g s.1 s.2
        Except.ok (w, updateGame l session_id
          { g with player1_tactic := some t1, player2_tactic := some t2,
                   player1_score := some s.1, player2_score := some s.2,
                   winner := some w })
    | _, _ => Except.error ContractError.BothPlayersNotSubmitted

/-- Modelled from the spec: the read-only get operation of the Session
Ledger (section 4.2), failing GameNotFound when the id is absent. -/
def get_game (l : Ledger) (session_id : Nat) : Except ContractError Game :=
  match lookupGame l session_id with
  | none => Except.error ContractError.GameNotFound
  | some g => Except.ok g

/-- A verifier that accepts every proof, for concrete scenario runs. -/
def trivialVerify : Nat → List Nat → List Nat → Bool := fun _ _ _ => true

/-- A reveal function reading the bound choice as the head byte of the
stored commitment, for concrete scenario runs. -/
def headReveal : List Nat → Nat := fun c => c.headD 0

/-- The concrete testable scenario of the specification (section 8):
create session 7 for P1 and P2 staking 100 each, P1 submits a valid
commitment for tactic t1, P2 for tactic t2, then resolve; returns the
final session record if every step succeeds. -/
def runScenario (t1 t2 : Nat) : Option Game :=
  match start_game [] 7 ("P1") ("P2") 100 100 with
  | Except.error _ => none
  | Except.ok l1 =>
    match submit_tactic trivialVerify l1 7 ("P1") [t1] [9, 9] with
    | Except.error _ => none
    | Except.ok l2 =>
      match submit_tactic trivialVerify l2 7 ("P2") [t2] [9, 8] with
      | Except.error _ => none
      | Except.ok l3 =>
        match resolve_match headReveal l3 7 with
        | Except.error _ => none
        | Except.ok (_, l4) => lookupGame l4 7

/-- Outcome of the get_game simulation performed by
ZkTacticalMatchService.getGame: either the simulation returns (with an
Ok game or a contract error Result), or something throws on the way. -/
inductive SimOutcome where
  | success (result : Except ContractError Game)
  | exception

/-- ZkTacticalMatchService.getGame from zkTacticalMatchService.ts: the
try block simulates get_game and returns the unwrapped record when the
Result isOk and null otherwise; the catch-all clause returns null on any
thrown exception. -/
def getGame : SimOutcome → Option Game
  | SimOutcome.success (Except.ok g) => some g
  | SimOutcome.success (Except.error _) => none
  | SimOutcome.exception => none

/-- Soroban contract-call argument values, as read by parseAuthEntry
(args[0].u32() and args[1].i128().lo()). -/
inductive ScVal where
  | u32 (n : Nat)
  | i128 (lo : Int)
  | other
  deriving DecidableEq, Repr

/-- A Soroban authorization entry as the frontend reads it: the
credential address, the signature expiration ledger, and the root
invocation function name and arguments. -/
structure AuthEntry where
  credentialsAddress : String
  signatureExpirationLedger : Nat
  functionName : String
  args : List ScVal
  deriving DecidableEq, Repr

/-- The record produced by ZkTacticalMatchService.parseAuthEntry. -/
structure ParsedAuthEntry where
  sessionId : Nat
  playerAddress : String
  playerPoints : Int
  functionName : String
  deriving DecidableEq, Repr

/-- The failure kinds of the Phase-2 validation prefix of
importAndFinalizeAsPlayer1: a parse failure inside parseAuthEntry
(wrong function name, wrong argument count or types, malformed XDR), or
one of the two explicit field checks. There is no stake-mismatch and no
expiry failure kind in the source. -/
inductive FinalizeError where
  | parseFailed
  | notFromPlayer2
  | sessionIdMismatch
  deriving DecidableEq, Repr

/-- ZkTacticalMatchService.parseAuthEntry from zkTacticalMatchService.ts:
extracts the credential address, checks the authorized function is
start_game, checks there are exactly two arguments, and reads the
session id (u32) and the signing players points (i128 lo). The
signature expiration ledger of the entry is never read. -/
def parseAuthEntry (e : AuthEntry) : Except FinalizeError ParsedAuthEntry :=
  if e.functionName == "start_game" then
    match e.args with
    | [ScVal.u32 sid, ScVal.i128 pts] =>
      Except.ok { sessionId := sid, playerAddress := e.credentialsAddress,
                  playerPoints := pts, functionName := e.functionName }
    | _ => Except.error FinalizeError.parseFailed
  else Except.error FinalizeError.parseFailed

/-- The two explicit validation checks of importAndFinalizeAsPlayer1 on
the parsed entry: the entry must be from the expected Player 2, and must
carry the expected session id. The parsed playerPoints field is not
compared against anything. -/
def validateParsedAuthEntry (p : ParsedAuthEntry) (sessionId : Nat)
    (player2Address : String) : Except FinalizeError Unit :=
  if p.playerAddress != player2Address then Except.error FinalizeError.notFromPlayer2
  else if p.sessionId != sessionId then Except.error FinalizeError.sessionIdMismatch
  else Except.ok ()

/-- The validation prefix of ZkTacticalMatchService.importAndFinalizeAsPlayer1
(everything it checks about the received Phase-1 payload before the
create/start_game transaction is rebuilt and submitted): parse the
payload, then run the two field checks. The expected stake arguments
player1Points and player2Points are received, as in the TypeScript
signature, but take no part in validation; neither does the payload
expiration. -/
def importAndFinalizeValidation (authEntry : AuthEntry) (sessionId : Nat)
    (player2Address : String) (player1Points player2Points : Int) :
    Except FinalizeError Unit :=
  match parseAuthEntry authEntry with
  | Except.error e => Except.error e
  | Except.ok p => validateParsedAuthEntry p sessionId player2Address

/-- Failure kinds of prepareStartGameAsPlayer2: no auth entries in the
simulation, no entry addressed to Player 2, or the signer lacking the
signAuthEntry capability. -/
inductive PrepareError where
  | noAuthEntries
  | noPlayer2Entry
  | signAuthEntryUnavailable
  deriving DecidableEq, Repr

/-- The creation request as prepareStartGameAsPlayer2 builds it: the
client is constructed with publicKey player1, so Player 1 is the
transaction source account even though Player 2 does the building. -/
structure StartGameRequest where
  sourceAccount : String
  session_id : Nat
  player1 : String
  player2 : String
  player1_points : Int
  player2_points : Int
  deriving DecidableEq, Repr

/-- Request construction inside prepareStartGameAsPlayer2: the build
client names player1 as the transaction source (publicKey: player1). -/
def buildStartGameRequest (session_id : Nat) (player1 player2 : String)
    (player1_points player2_points : Int) : StartGameRequest :=
  { sourceAccount := player1, session_id := session_id, player1 := player1,
    player2 := player2, player1_points := player1_points,
    player2_points := player2_points }

/-- The auth-entry scan of prepareStartGameAsPlayer2: the first simulated
entry whose credential address equals the Player 2 address. -/
def findPlayer2AuthEntry (entries : List AuthEntry) (player2 : String) : Option AuthEntry :=
  entries.find? (fun e => e.credentialsAddress == player2)

/-- ZkTacticalMatchService.prepareStartGameAsPlayer2 from
zkTacticalMatchService.ts, with the simulation result (the auth entries
of the simulated request) and the availability of the signers
signAuthEntry capability as external inputs: fails when the simulation
carries no auth entries, scans for the entry addressed to Player 2,
fails when none is found, and signs exactly that entry with the extended
multi-sig validity window (validUntilLedgerSeq); the signed entry is
returned for export. -/
def prepareStartGameAsPlayer2 (session_id : Nat) (player1 player2 : String)
    (player1_points player2_points : Int)
    (simulatedAuth : Option (List AuthEntry)) (validUntilLedgerSeq : Nat)
    (hasSignAuthEntry : Bool) : Except PrepareError AuthEntry :=
  match simulatedAuth with
  | none => Except.error PrepareError.noAuthEntries
  | some entries =>
    match findPlayer2AuthEntry entries player2 with
    | none => Except.error PrepareError.noPlayer2Entry
    | some e =>
      if hasSignAuthEntry then
        Except.ok { e with signatureExpirationLedger := validUntilLedgerSeq }
      else Except.error PrepareError.signAuthEntryUnavailable

/-- Example session for the resolve-lifecycle witness: both commitment
slots filled, not yet resolved. -/
def c3ExampleGame : Game :=
  { newGame ("A") ("B") 10 10 with
      player1_proof_hash := some [1], player2_proof_hash := some [2] }

/-- Example single-session ledger for the resolve-lifecycle witness. -/
def c3ExampleLedger : Ledger := [(5, c3ExampleGame)]

/-- Example session for the tie-break witness: both players committed to
tactic 0 (Defensive). -/
def c5ExampleGame : Game :=
  { newGame ("P1") ("P2") 100 100 with
      player1_proof_hash := some [0], player2_proof_hash := some [0] }

/-- Example single-session ledger for the tie-break witness. -/
def c5ExampleLedger : Ledger := [(7, c5ExampleGame)]

/-- Example Phase-1 payload for the field-validation witness. -/
def c1ExampleEntry : AuthEntry :=
  { credentialsAddress := "PB", signatureExpirationLedger := 1000,
    functionName := "start_game", args := [ScVal.u32 9, ScVal.i128 50] }

/-- Parse result of the example Phase-1 payload. -/
def c1ExampleParsed : ParsedAuthEntry :=
  { sessionId := 9, playerAddress := "PB", playerPoints := 50,
    functionName := "start_game" }

/-- Lookup after consing a binding for the same identifier. -/
theorem lookupGame_cons_self (id : Nat) (g : Game) (l : Ledger) :
    lookupGame ((id, g) :: l) id = some g := by
  simp [lookupGame]

/-- Updating a present identifier makes lookup return the new record. -/
theorem lookupGame_updateGame_self (l : Ledger) (id : Nat) (g g2 : Game)
    (h : lookupGame l id = some g) :
    lookupGame (updateGame l id g2) id = some g2 := by
  induction l with
  | nil => simp [lookupGame] at h
  | cons p tl ih =>
    obtain ⟨k, gk⟩ := p
    by_cases hk : (k == id) = true
    · simp [updateGame, hk, lookupGame]
    · simp only [lookupGame, hk, if_neg, Bool.false_eq_true, if_false] at h
      simp [updateGame, hk, lookupGame, ih h]

/-- Claim C8 (confirmed): the fixed 4x4 payoff table is mirror-symmetric:
for all choices a, b in the four-value domain, resolving (a, b) to
scores (sa, sb) means resolving (b, a) yields (sb, sa). -/
theorem c8_scoreMatrix_mirror_symmetric :
    ∀ a b : Fin 4, (scoreMatrix a.1 b.1).1 = (scoreMatrix b.1 a.1).2 ∧
      (scoreMatrix a.1 b.1).2 = (scoreMatrix b.1 a.1).1 := by
  decide

/-- Claim C10 (confirmed): ZkTacticalMatchService.getGame never throws:
it returns the Game record exactly when the simulated contract call
yields an Ok result, and returns null (none) for a contract error result
and for any exception thrown during simulation. -/
theorem c10_getGame_never_throws :
    (∀ g : Game, getGame (SimOutcome.success (Except.ok g)) = some g) ∧
    (∀ e : ContractError, getGame (SimOutcome.success (Except.error e)) = none) ∧
    getGame SimOutcome.exception = none :=
  ⟨fun _ => rfl, fun _ => rfl, rfl⟩

/-- Claim C2, counterexample: the concrete scenario with choices
(2 = Aggressive, 1 = Balanced) resolves to scores (2, 1) according to the
strategic matrix recorded in the repository documentation (row
Aggressive, column Balanced reads 2-1), not to the (3, 2) the claim
states; the winner is P1 either way. -/
theorem c2_counterexample :
    (runScenario 2 1).map (fun g => (g.player1_score, g.player2_score))
        = some (some 2, some 1) ∧
    (runScenario 2 1).map (fun g => (g.player1_score, g.player2_score))
        ≠ some (some 3, some 2) := by
  exact ⟨rfl, by decide⟩

/-- Claim C2 (corrected): create(7, P1, P2, 100, 100), submit of a valid
commitment for choice 2 by P1 and for choice 1 by P2, then resolve,
yields revealed tactics (2, 1), scores (2, 1) and winner P1. -/
theorem c2_scenario_aggressive_balanced :
    (runScenario 2 1).map
        (fun g => (g.player1_tactic, g.player2_tactic, g.player1_score,
                   g.player2_score, g.winner))
      = some (some 2, some 1, some 2, some 1, some ("P1")) := by
  rfl

/-- Claim C7, counterexample: a Phase-1 payload whose signature
expiration ledger is 0 (elapsed at any positive current ledger) passes
the entire Phase-2 client-side validation of importAndFinalizeAsPlayer1
when its party and session fields match: the finalization does not fail
with any expiry-specific error (the FinalizeError type of the source has
no such kind). -/
theorem c7_counterexample :
    importAndFinalizeValidation
        { credentialsAddress := "PB", signatureExpirationLedger := 0,
          functionName := "start_game", args := [ScVal.u32 9, ScVal.i128 50] }
        9 ("PB") 50 50 = Except.ok () := by
  rfl

/-- Claim C7 (corrected): the Phase-2 validation of
importAndFinalizeAsPlayer1 performs no expiry check at all: its result
is independent of the signature expiration ledger carried by the
received payload, so an expired payload is not rejected client-side with
an expiry-specific error (expiry enforcement is left to the ledger when
the merged transaction is submitted). -/
theorem c7_no_expiry_check (e : AuthEntry) (sid : Nat) (p2 : String)
    (pts1 pts2 : Int) (n : Nat) :
    importAndFinalizeValidation { e with signatureExpirationLedger := n } sid p2 pts1 pts2
      = importAndFinalizeValidation e sid p2 pts1 pts2 := by
  cases e
  rfl

/-- Claim C1, counterexample: a Phase-1 payload carrying stake 50 for the
joining party, validated by Phase-2 finalization against an expected
joining-party stake of 60, is accepted (Except.ok) rather than aborted:
the stake field is extracted but never compared, so a stake mismatch does
not abort before the create submission is attempted. -/
theorem c1_counterexample :
    importAndFinalizeValidation
        { credentialsAddress := "PB", signatureExpirationLedger := 1000,
          functionName := "start_game", args := [ScVal.u32 9, ScVal.i128 50] }
        9 ("PB") 50 60 = Except.ok () ∧ (50 : Int) ≠ 60 := by
  exact ⟨rfl, by decide⟩

/-- Claim C1 (corrected): Phase-2 finalization validates exactly two of
the three fields: a payload naming an unexpected joining party aborts
with the distinct error notFromPlayer2, an unexpected session identifier
aborts with the distinct error sessionIdMismatch, and a payload matching
on those two fields is accepted; the validation result is independent of
the expected stake arguments, so a stake mismatch does not abort. -/
theorem c1_two_field_validation (e : AuthEntry) (p : ParsedAuthEntry)
    (sid : Nat) (p2 : String) (pts1 pts2 pts1b pts2b : Int)
    (hp : parseAuthEntry e = Except.ok p) :
    (p.playerAddress ≠ p2 →
      importAndFinalizeValidation e sid p2 pts1 pts2
        = Except.error FinalizeError.notFromPlayer2) ∧
    (p.playerAddress = p2 → p.sessionId ≠ sid →
      importAndFinalizeValidation e sid p2 pts1 pts2
        = Except.error FinalizeError.sessionIdMismatch) ∧
    (p.playerAddress = p2 → p.sessionId = sid →
      importAndFinalizeValidation e sid p2 pts1 pts2 = Except.ok ()) ∧
    importAndFinalizeValidation e sid p2 pts1 pts2
      = importAndFinalizeValidation e sid p2 pts1b pts2b ∧
    FinalizeError.notFromPlayer2 ≠ FinalizeError.sessionIdMismatch := by
  refine ⟨?_, ?_, ?_, rfl, by decide⟩
  · intro h
    simp [importAndFinalizeValidation, hp, validateParsedAuthEntry, h]
  · intro h hs
    simp [importAndFinalizeValidation, hp, validateParsedAuthEntry, h, hs]
  · intro h hs
    simp [importAndFinalizeValidation, hp, validateParsedAuthEntry, h, hs]

/-- Witness for C1: the two-field validation theorem instantiated at the
example payload, with an expected joining party PA differing from the
payload party PB. -/
theorem c1_two_field_validation_witness :
    parseAuthEntry c1ExampleEntry = Except.ok c1ExampleParsed ∧
    ((c1ExampleParsed.playerAddress ≠ ("PA") →
      importAndFinalizeValidation c1ExampleEntry 9 ("PA") 50 50
        = Except.error FinalizeError.notFromPlayer2) ∧
    (c1ExampleParsed.playerAddress = ("PA") → c1ExampleParsed.sessionId ≠ 9 →
      importAndFinalizeValidation c1ExampleEntry 9 ("PA") 50 50
        = Except.error FinalizeError.sessionIdMismatch) ∧
    (c1ExampleParsed.playerAddress = ("PA") → c1ExampleParsed.sessionId = 9 →
      importAndFinalizeValidation c1ExampleEntry 9 ("PA") 50 50 = Except.ok ()) ∧
    importAndFinalizeValidation c1ExampleEntry 9 ("PA") 50 50
      = importAndFinalizeValidation c1ExampleEntry 9 ("PA") 50 60 ∧
    FinalizeError.notFromPlayer2 ≠ FinalizeError.sessionIdMismatch) :=
  ⟨rfl, c1_two_field_validation c1ExampleEntry c1ExampleParsed 9 ("PA") 50 50 50 60 rfl⟩

/-- Claim C6 (confirmed): in Phase 1 the joining party builds the
creation request with the initiator named as transaction submitter
(sourceAccount = player1), any auth entry it returns for signing is the
stub addressed to itself (credential address = player2, never the other
party), and when no stub addressed to itself is present the preparation
fails with the no-Player-2-entry error. -/
theorem c6_prepare_as_player2 (session_id : Nat) (player1 player2 : String)
    (pts1 pts2 : Int) (entries : List AuthEntry) (ttl : Nat) (hasSign : Bool) :
    (buildStartGameRequest session_id player1 player2 pts1 pts2).sourceAccount = player1 ∧
    (∀ e, prepareStartGameAsPlayer2 session_id player1 player2 pts1 pts2
        (some entries) ttl hasSign = Except.ok e → e.credentialsAddress = player2) ∧
    ((∀ e ∈ entries, e.credentialsAddress ≠ player2) →
      prepareStartGameAsPlayer2 session_id player1 player2 pts1 pts2
        (some entries) ttl hasSign = Except.error PrepareError.noPlayer2Entry) := by
  refine ⟨rfl, ?_, ?_⟩
  · intro e he
    simp only [prepareStartGameAsPlayer2] at he
    cases hf : findPlayer2AuthEntry entries player2 with
    | none => rw [hf] at he; cases he
    | some e0 =>
      simp only [hf] at he
      unfold findPlayer2AuthEntry at hf
      have haddr := List.find?_some hf
      simp only [beq_iff_eq] at haddr
      by_cases hs : hasSign = true
      · rw [if_pos hs] at he
        cases he
        exact haddr
      · rw [if_neg hs] at he
        cases he
  · intro h
    have hf : findPlayer2AuthEntry entries player2 = none := by
      unfold findPlayer2AuthEntry
      rw [List.find?_eq_none]
      intro e he
      simpa using h e he
    simp [prepareStartGameAsPlayer2, hf]

/-- Witness for C6: the preparation theorem instantiated with a single
simulated auth entry addressed to the initiator PA rather than the
joining party PB: the source account is PA and the preparation aborts
with the no-Player-2-entry error. -/
theorem c6_prepare_as_player2_witness :
    (buildStartGameRequest 9 ("PA") ("PB") 50 50).sourceAccount = ("PA") ∧
    prepareStartGameAsPlayer2 9 ("PA") ("PB") 50 50
        (some [{ credentialsAddress := "PA", signatureExpirationLedger := 0,
                 functionName := "start_game", args := [] }]) 100 true
      = Except.error PrepareError.noPlayer2Entry :=
  ⟨(c6_prepare_as_player2 9 ("PA") ("PB") 50 50
      [{ credentialsAddress := "PA", signatureExpirationLedger := 0,
         functionName := "start_game", args := [] }] 100 true).1,
   (c6_prepare_as_player2 9 ("PA") ("PB") 50 50
      [{ credentialsAddress := "PA", signatureExpirationLedger := 0,
         functionName := "start_game", args := [] }] 100 true).2.2 (by decide)⟩

/-- Claim C9 (confirmed): for distinct players a and b and a fresh
identifier, create followed by get returns a session in phase Active
with both commitment slots empty, both player identities and both stakes
equal to the created values. -/
theorem c9_create_then_get (l : Ledger) (id : Nat) (a b : String)
    (sa sb : Int) (hfresh : lookupGame l id = none) (hne : a ≠ b) :
    ∃ l2, start_game l id a b sa sb = Except.ok l2 ∧
      get_game l2 id = Except.ok (newGame a b sa sb) ∧
      (newGame a b sa sb).phase = Phase.Active ∧
      (newGame a b sa sb).player1_proof_hash = none ∧
      (newGame a b sa sb).player2_proof_hash = none ∧
      (newGame a b sa sb).player1 = a ∧ (newGame a b sa sb).player2 = b ∧
      (newGame a b sa sb).player1_points = sa ∧
      (newGame a b sa sb).player2_points = sb := by
  refine ⟨(id, newGame a b sa sb) :: l, ?_, ?_, rfl, rfl, rfl, rfl, rfl, rfl, rfl⟩
  · simp [start_game, hfresh, hne]
  · simp [get_game, lookupGame]

/-- Witness for C9: create then get on the empty ledger with players A
and B staking 10 and 20. -/
theorem c9_create_then_get_witness :
    lookupGame ([] : Ledger) 7 = none ∧ ("A" : String) ≠ ("B") ∧
    (∃ l2, start_game [] 7 ("A") ("B") 10 20 = Except.ok l2 ∧
      get_game l2 7 = Except.ok (newGame ("A") ("B") 10 20) ∧
      (newGame ("A") ("B") 10 20).phase = Phase.Active ∧
      (newGame ("A") ("B") 10 20).player1_proof_hash = none ∧
      (newGame ("A") ("B") 10 20).player2_proof_hash = none ∧
      (newGame ("A") ("B") 10 20).player1 = ("A") ∧
      (newGame ("A") ("B") 10 20).player2 = ("B") ∧
      (newGame ("A") ("B") 10 20).player1_points = 10 ∧
      (newGame ("A") ("B") 10 20).player2_points = 20) :=
  ⟨rfl, by decide, c9_create_then_get [] 7 ("A") ("B") 10 20 rfl (by decide)⟩

/-- Claim C3 (confirmed): for every stored session, resolve before both
commitment slots are filled always fails BothPlayersNotSubmitted; once
both are filled and no winner is stored, resolve succeeds returning a
winner, and resolving the resulting ledger again fails GameAlreadyEnded;
and on a session already carrying a winner resolve fails
GameAlreadyEnded — the session is never resolved twice (the ledger model
serializes calls per session, so the second of two racing callers sees
the post-resolution state). -/
theorem c3_resolve_lifecycle (reveal : List Nat → Nat) (l : Ledger)
    (id : Nat) (g : Game) (hg : lookupGame l id = some g) :
    ((g.player1_proof_hash = none ∨ g.player2_proof_hash = none) →
      resolve_match reveal l id = Except.error ContractError.BothPlayersNotSubmitted) ∧
    (∀ c1 c2, g.player1_proof_hash = some c1 → g.player2_proof_hash = some c2 →
      g.winner = none →
      ∃ w l2, resolve_match reveal l id = Except.ok (w, l2) ∧
        resolve_match reveal l2 id = Except.error ContractError.GameAlreadyEnded) ∧
    (∀ c1 c2 w0, g.player1_proof_hash = some c1 → g.player2_proof_hash = some c2 →
      g.winner = some w0 →
      resolve_match reveal l id = Except.error ContractError.GameAlreadyEnded) := by
  have hres : ∀ (l3 : Ledger) (g3 : Game), lookupGame l3 id = some g3 →
      ∀ c1 c2 w0, g3.player1_proof_hash = some c1 →
        g3.player2_proof_hash = some c2 → g3.winner = some w0 →
        resolve_match reveal l3 id = Except.error ContractError.GameAlreadyEnded := by
    intro l3 g3 hg3 c1 c2 w0 h1 h2 hw
    simp [resolve_match, hg3, h1, h2, hw]
  refine ⟨?_, ?_, ?_⟩
  · rintro (h | h)
    · cases hx : g.player2_proof_hash <;> simp [resolve_match, hg, h, hx]
    · cases hx : g.player1_proof_hash <;> simp [resolve_match, hg, h, hx]
  · intro c1 c2 h1 h2 hw
    refine ⟨winnerOf g (scoreMatrix (reveal c1) (reveal c2)).1
        (scoreMatrix (reveal c1) (reveal c2)).2,
      updateGame l id
        { g with player1_tactic := some (reveal c1),
                 player2_tactic := some (reveal c2),
                 player1_score := some (scoreMatrix (reveal c1) (reveal c2)).1,
                 player2_score := some (scoreMatrix (reveal c1) (reveal c2)).2,
                 winner := some (winnerOf g (scoreMatrix (reveal c1) (reveal c2)).1
                   (scoreMatrix (reveal c1) (reveal c2)).2) }, ?_, ?_⟩
    · simp [resolve_match, hg, h1, h2, hw]
    · have hlook := lookupGame_updateGame_self l id g
        { g with player1_tactic := some (reveal c1),
                 player2_tactic := some (reveal c2),
                 player1_score := some (scoreMatrix (reveal c1) (reveal c2)).1,
                 player2_score := some (scoreMatrix (reveal c1) (reveal c2)).2,
                 winner := some (winnerOf g (scoreMatrix (reveal c1) (reveal c2)).1
                   (scoreMatrix (reveal c1) (reveal c2)).2) } hg
      exact hres _ _ hlook c1 c2 _ h1 h2 rfl
  · intro c1 c2 w0 h1 h2 hw
    exact hres l g hg c1 c2 w0 h1 h2 hw

/-- Witness for C3: the lifecycle theorem on the example ledger whose
single session has both commitments filled and no winner: resolve
succeeds and a second resolve on the resulting ledger fails
GameAlreadyEnded. -/
theorem c3_resolve_lifecycle_witness :
    lookupGame c3ExampleLedger 5 = some c3ExampleGame ∧
    c3ExampleGame.player1_proof_hash = some [1] ∧
    c3ExampleGame.player2_proof_hash = some [2] ∧
    c3ExampleGame.winner = none ∧
    (∃ w l2, resolve_match headReveal c3ExampleLedger 5 = Except.ok (w, l2) ∧
      resolve_match headReveal l2 5 = Except.error ContractError.GameAlreadyEnded) :=
  ⟨rfl, rfl, rfl, rfl,
   (c3_resolve_lifecycle headReveal c3ExampleLedger 5 c3ExampleGame rfl).2.1
     [1] [2] rfl rfl rfl⟩

/-- Claim C4 (confirmed): every submit call either succeeds — which
requires verifier acceptance and stores the commitment in that players
slot — or fails with exactly one of GameNotFound, NotPlayer,
AlreadySubmitted, GameAlreadyEnded, InvalidProof (never any other
kind), and the individual failure kinds fire on their stated
conditions. -/
theorem c4_submit_error_taxonomy (verify : Nat → List Nat → List Nat → Bool)
    (l : Ledger) (id : Nat) (player : String) (commitment proof : List Nat) :
    (∀ e, submit_tactic verify l id player commitment proof = Except.error e →
      e = ContractError.GameNotFound ∨ e = ContractError.NotPlayer ∨
      e = ContractError.AlreadySubmitted ∨ e = ContractError.GameAlreadyEnded ∨
      e = ContractError.InvalidProof) ∧
    (∀ l2, submit_tactic verify l id player commitment proof = Except.ok l2 →
      verify id commitment proof = true ∧
      ∃ g2, lookupGame l2 id = some g2 ∧
        (g2.player1_proof_hash = some commitment ∨
         g2.player2_proof_hash = some commitment)) ∧
    (lookupGame l id = none →
      submit_tactic verify l id player commitment proof
        = Except.error ContractError.GameNotFound) ∧
    (∀ g, lookupGame l id = some g → player ≠ g.player1 → player ≠ g.player2 →
      submit_tactic verify l id player commitment proof
        = Except.error ContractError.NotPlayer) ∧
    (∀ g, lookupGame l id = some g →
      ((player = g.player1 ∧ g.player1_proof_hash.isSome = true) ∨
       (player = g.player2 ∧ player ≠ g.player1 ∧ g.player2_proof_hash.isSome = true)) →
      submit_tactic verify l id player commitment proof
        = Except.error ContractError.AlreadySubmitted) ∧
    (∀ g, lookupGame l id = some g →
      ((player = g.player1 ∧ g.player1_proof_hash = none) ∨
       (player = g.player2 ∧ player ≠ g.player1 ∧ g.player2_proof_hash = none)) →
      g.winner.isSome = true →
      submit_tactic verify l id player commitment proof
        = Except.error ContractError.GameAlreadyEnded) ∧
    (∀ g, lookupGame l id = some g →
      ((player = g.player1 ∧ g.player1_proof_hash = none) ∨
       (player = g.player2 ∧ player ≠ g.player1 ∧ g.player2_proof_hash = none)) →
      g.winner = none → verify id commitment proof = false →
      submit_tactic verify l id player commitment proof
        = Except.error ContractError.InvalidProof) := by
  refine ⟨?_, ?_, ?_, ?_, ?_, ?_, ?_⟩
  · intro e he
    unfold submit_tactic at he
    cases hlook : lookupGame l id with
    | none =>
      simp only [hlook] at he
      cases he
      exact Or.inl rfl
    | some g =>
      simp only [hlook] at he
      split_ifs at he <;> cases he <;> decide
  · intro l2 hok
    unfold submit_tactic at hok
    cases hlook : lookupGame l id with
    | none =>
      simp only [hlook] at hok
      cases hok
    | some g =>
      simp only [hlook] at hok
      split_ifs at hok with hp1 ha hw hv hp2 ha2 hw2 hv2 <;> cases hok
      · exact ⟨hv, { g with player1_proof_hash := some commitment },
          lookupGame_updateGame_self l id g _ hlook, Or.inl rfl⟩
      · exact ⟨hv2, { g with player2_proof_hash := some commitment },
          lookupGame_updateGame_self l id g _ hlook, Or.inr rfl⟩
  · intro h
    simp [submit_tactic, h]
  · intro g hg hne1 hne2
    simp [submit_tactic, hg, hne1, hne2]
  · rintro g hg (⟨heq, hs⟩ | ⟨heq, hne1, hs⟩)
    · subst heq
      simp [submit_tactic, hg, hs]
    · subst heq
      simp [submit_tactic, hg, hne1, hs]
  · rintro g hg (⟨heq, hs⟩ | ⟨heq, hne1, hs⟩) hw
    · subst heq
      simp [submit_tactic, hg, hs, hw]
    · subst heq
      simp [submit_tactic, hg, hne1, hs, hw]
  · rintro g hg (⟨heq, hs⟩ | ⟨heq, hne1, hs⟩) hw hv
    · subst heq
      simp [submit_tactic, hg, hs, hw, hv]
    · subst heq
      simp [submit_tactic, hg, hne1, hs, hw, hv]

/-- Witness for C4: submitting on the empty ledger fails GameNotFound. -/
theorem c4_submit_error_taxonomy_witness :
    lookupGame ([] : Ledger) 1 = none ∧
    submit_tactic trivialVerify [] 1 ("A") [0] []
      = Except.error ContractError.GameNotFound :=
  ⟨rfl, (c4_submit_error_taxonomy trivialVerify [] 1 ("A") [0] []).2.2.1 rfl⟩

/-- Claim C5 (confirmed): resolving a session stores the matrix scores
for the revealed pair and selects as winner the player with the strictly
higher score, with equal scores deterministically selecting the
first-listed player; in particular the tie rule gives player 1 the win
on equal scores such as the (0, 0) Defensive/Defensive diagonal entry. -/
theorem c5_winner_tie_break (reveal : List Nat → Nat) (l : Ledger) (id : Nat)
    (g : Game) (c1 c2 : List Nat) (hg : lookupGame l id = some g)
    (h1 : g.player1_proof_hash = some c1) (h2 : g.player2_proof_hash = some c2)
    (hw : g.winner = none) :
    (∃ l2 g2, resolve_match reveal l id = Except.ok
          (winnerOf g (scoreMatrix (reveal c1) (reveal c2)).1
            (scoreMatrix (reveal c1) (reveal c2)).2, l2) ∧
        lookupGame l2 id = some g2 ∧
        g2.player1_score = some (scoreMatrix (reveal c1) (reveal c2)).1 ∧
        g2.player2_score = some (scoreMatrix (reveal c1) (reveal c2)).2 ∧
        g2.winner = some (winnerOf g (scoreMatrix (reveal c1) (reveal c2)).1
          (scoreMatrix (reveal c1) (reveal c2)).2)) ∧
    ((scoreMatrix (reveal c1) (reveal c2)).2 < (scoreMatrix (reveal c1) (reveal c2)).1 →
      winnerOf g (scoreMatrix (reveal c1) (reveal c2)).1
        (scoreMatrix (reveal c1) (reveal c2)).2 = g.player1) ∧
    ((scoreMatrix (reveal c1) (reveal c2)).1 < (scoreMatrix (reveal c1) (reveal c2)).2 →
      winnerOf g (scoreMatrix (reveal c1) (reveal c2)).1
        (scoreMatrix (reveal c1) (reveal c2)).2 = g.player2) ∧
    ((scoreMatrix (reveal c1) (reveal c2)).1 = (scoreMatrix (reveal c1) (reveal c2)).2 →
      winnerOf g (scoreMatrix (reveal c1) (reveal c2)).1
        (scoreMatrix (reveal c1) (reveal c2)).2 = g.player1) := by
  refine ⟨?_, ?_, ?_, ?_⟩
  · refine ⟨updateGame l id
        { g with player1_tactic := some (reveal c1),
                 player2_tactic := some (reveal c2),
                 player1_score := some (scoreMatrix (reveal c1) (reveal c2)).1,
                 player2_score := some (scoreMatrix (reveal c1) (reveal c2)).2,
                 winner := some (winnerOf g (scoreMatrix (reveal c1) (reveal c2)).1
                   (scoreMatrix (reveal c1) (reveal c2)).2) }, _,
      ?_, lookupGame_updateGame_self l id g _ hg, rfl, rfl, rfl⟩
    simp [resolve_match, hg, h1, h2, hw]
  · intro h
    simp [winnerOf, Nat.le_of_lt h]
  · intro h
    simp only [winnerOf, if_neg (by omega : ¬ (scoreMatrix (reveal c1) (reveal c2)).2
      ≤ (scoreMatrix (reveal c1) (reveal c2)).1)]
  · intro h
    simp [winnerOf, Nat.le_of_eq h.symm]

/-- Witness for C5: the tie-break theorem on the example session where
both players committed to tactic 0: the matrix gives equal scores (0, 0)
and the winner is the first-listed player P1. -/
theorem c5_winner_tie_break_witness :
    lookupGame c5ExampleLedger 7 = some c5ExampleGame ∧
    scoreMatrix (headReveal [0]) (headReveal [0]) = (0, 0) ∧
    c5ExampleGame.player1 = ("P1") ∧
    winnerOf c5ExampleGame (scoreMatrix (headReveal [0]) (headReveal [0])).1
      (scoreMatrix (headReveal [0]) (headReveal [0])).2 = c5ExampleGame.player1 ∧
    (∃ l2 g2, resolve_match headReveal c5ExampleLedger 7 = Except.ok
          (winnerOf c5ExampleGame (scoreMatrix (headReveal [0]) (headReveal [0])).1
            (scoreMatrix (headReveal [0]) (headReveal [0])).2, l2) ∧
        lookupGame l2 7 = some g2 ∧
        g2.player1_score = some (scoreMatrix (headReveal [0]) (headReveal [0])).1 ∧
        g2.player2_score = some (scoreMatrix (headReveal [0]) (headReveal [0])).2 ∧
        g2.winner = some (winnerOf c5ExampleGame
          (scoreMatrix (headReveal [0]) (headReveal [0])).1
          (scoreMatrix (headReveal [0]) (headReveal [0])).2)) :=
  ⟨rfl, rfl, rfl,
   (c5_winner_tie_break headReveal c5ExampleLedger 7 c5ExampleGame [0] [0]
      rfl rfl rfl rfl).2.2.2 rfl,
   (c5_winner_tie_break headReveal c5ExampleLedger 7 c5ExampleGame [0] [0]
      rfl rfl rfl rfl).1⟩

end ZkTacticalMatch
